import Mathlib

/-
Verification of the order execution engine: a shallow embedding of the
data model, the retry utility, the routing engine, the lifecycle state
machine, the persistence merge update, the WebSocket fan-out registry and
the queue intake, together with theorems settling the specification
claims against these definitions.
-/

set_option autoImplicit false

namespace OrderExec

/-! ## Data model (src/types, part_002) -/

/-- Order type enum from the shared types module. -/
inductive OrderType where
  | market
  | limit
  | sniper
  deriving DecidableEq, Repr

/-- Order status enum from the shared types module. -/
inductive OrderStatus where
  | pending
  | routing
  | building
  | submitted
  | confirmed
  | failed
  deriving DecidableEq, Repr

/-- A venue quote: DexQuote from the shared types module.  JS numbers are
modelled as rationals. -/
structure DexQuote where
  dex : String
  price : ℚ
  deriving DecidableEq, Repr

/-- RouteResult from the shared types module. -/
structure RouteResult where
  dex : String
  bestQuote : DexQuote
  allQuotes : List DexQuote
  routingReason : String
  deriving DecidableEq, Repr

/-- ExecutionResult from the shared types module. -/
structure ExecutionResult where
  success : Bool
  txHash : Option String := none
  executedPrice : Option ℚ := none
  actualAmountOut : Option ℚ := none
  error : Option String := none
  deriving DecidableEq, Repr

/-- The Order record of the shared types module (part_002). -/
structure Order where
  id : String
  type : OrderType
  tokenIn : String
  tokenOut : String
  amountIn : ℚ
  status : OrderStatus
  createdAt : Nat := 0
  updatedAt : Nat := 0
  executedAt : Option Nat := none
  txHash : Option String := none
  errorMessage : Option String := none
  retryCount : Nat := 0
  dex : Option String := none
  deriving DecidableEq, Repr

/-! ## Retry utility (src/utils/errorHandler.ts, retryWithBackoff) -/

/-- The OrderExecutionError raised when the retry budget is exhausted:
its message and its details fields attempts and lastError. -/
structure AggregateError where
  message : String
  attempts : Nat
  lastError : String
  deriving DecidableEq, Repr

/-- Observable outcome of a retryWithBackoff run: the returned value or the
raised aggregate error, the number of times the operation was invoked, and
the list of delays slept between consecutive invocations. -/
structure RetryResult (α : Type) where
  result : Except AggregateError α
  calls : Nat
  delays : List Nat

/-- The retry loop of retryWithBackoff.  The operation is indexed by the
attempt number; remaining counts the retries still allowed after the
current attempt (so the loop body runs remaining + 1 more times unless an
attempt succeeds).  On the final failed attempt an aggregate error is
raised carrying attempt + 1 (the total attempt count) and the last
underlying error message. -/
def retryLoop {α : Type} (op : Nat → Except String α)
    (baseDelay maxDelay backoffMultiplier : Nat) :
    Nat → Nat → RetryResult α
  | attempt, 0 =>
    match op attempt with
    | .ok v => ⟨.ok v, 1, []⟩
    | .error e =>
      ⟨.error ⟨"Operation failed after " ++ toString (attempt + 1) ++ " attempts: " ++ e,
          attempt + 1, e⟩, 1, []⟩
  | attempt, remaining + 1 =>
    match op attempt with
    | .ok v => ⟨.ok v, 1, []⟩
    | .error _ =>
      let delay := min (baseDelay * backoffMultiplier ^ attempt) maxDelay
      let rest := retryLoop op baseDelay maxDelay backoffMultiplier (attempt + 1) remaining
      ⟨rest.result, rest.calls + 1, delay :: rest.delays⟩

/-- retryWithBackoff from src/utils/errorHandler.ts: runs the operation up
to maxRetries + 1 times, sleeping min (baseDelay * backoffMultiplier ^
attempt) maxDelay between consecutive attempts.  The engine calls it with
the defaults maxRetries = 3, baseDelay = 1000, maxDelay = 30000,
backoffMultiplier = 2. -/
def retryWithBackoff {α : Type} (op : Nat → Except String α)
    (maxRetries baseDelay maxDelay backoffMultiplier : Nat) : RetryResult α :=
  retryLoop op baseDelay maxDelay backoffMultiplier 0 maxRetries

/-! ## Routing engine (dexRouter.selectBestDex, embedded from the class in
src/src/database/schema.sql; this is the router the engine instantiates in
part_003) -/

/-- Left pad a string with zero characters up to width w, used to render
the six fractional digits of a formatted price. -/
def padLeftZeros (s : String) (w : Nat) : String :=
  String.mk (List.replicate (w - s.length) '0') ++ s

/-- Decimal rendering of a nonnegative rational with six fractional
digits, the rounding model for the JS Number.toFixed 6 call: the floor of
q * 1000000 + 1 / 2, written as the integer floor division
(q.num * 2000000 + q.den) / (2 * q.den). -/
def toFixed6core (q : ℚ) : String :=
  let scaled : ℤ := Int.fdiv (q.num * 2000000 + q.den) (2 * q.den)
  let n : Nat := scaled.toNat
  toString (n / 1000000) ++ "." ++ padLeftZeros (toString (n % 1000000)) 6

/-- Model of the JS Number.toFixed 6 formatting used in the routing
justification string. -/
def toFixed6 (q : ℚ) : String :=
  if q < 0 then "-" ++ toFixed6core (-q) else toFixed6core q

/-- The selection step of dexRouter.selectBestDex once both quotes are in
hand: the venue with the strictly higher normalized price wins, a tie
falls to the else branch (meteora), and the justification string names the
selected venue and both formatted prices. -/
def selectBestDexWith (raydiumQuote meteoraQuote : DexQuote) : RouteResult :=
  if raydiumQuote.price > meteoraQuote.price then
    { dex := raydiumQuote.dex
      bestQuote := raydiumQuote
      allQuotes := [raydiumQuote, meteoraQuote]
      routingReason := "raydium selected: better effective price ("
        ++ toFixed6 raydiumQuote.price ++ " vs " ++ toFixed6 meteoraQuote.price ++ ")" }
  else
    { dex := meteoraQuote.dex
      bestQuote := meteoraQuote
      allQuotes := [raydiumQuote, meteoraQuote]
      routingReason := "meteora selected: better effective price ("
        ++ toFixed6 meteoraQuote.price ++ " vs " ++ toFixed6 raydiumQuote.price ++ ")" }

/-- Environment for the quote round: the outcome of getRaydiumQuote and
getMeteoraQuote on each attempt of the retry budget.  Error values carry
the message of the wrapped error thrown by the quote helper. -/
structure QuoteEnv where
  raydium : Nat → Except String DexQuote
  meteora : Nat → Except String DexQuote

/-- One round of dexRouter.selectBestDex under the environment: both
quotes are requested together; if either request rejects, the catch block
converts the failure into a DEX routing failed error and no RouteResult is
produced.  (Promise.all surfaces a rejection; when both reject we
deterministically surface the raydium one.) -/
def selectBestDexRound (qenv : QuoteEnv) (attempt : Nat) : Except String RouteResult :=
  match qenv.raydium attempt with
  | .error e => .error ("DEX routing failed: " ++ e)
  | .ok rq =>
    match qenv.meteora attempt with
    | .error e => .error ("DEX routing failed: " ++ e)
    | .ok mq => .ok (selectBestDexWith rq mq)

/-! ## Execution engine (OrderExecutionEngine, part_003) -/

/-- Environment of one processOrder run: the per attempt quote outcomes,
the outcome of the venue adapter executeSwap call (an error value is a
thrown exception message), the outcome of each updateOrderStatus call in
call order (none means the database update succeeded, some m means it
threw an error with message m), and the current clock reading. -/
structure EngineEnv where
  quotes : QuoteEnv
  execOutcome : Except String ExecutionResult
  persistOutcome : Nat → Option String
  now : Nat := 0

/-- One status update as persisted to the database and broadcast to the
WebSocket channel by the engine updateOrderStatus helper. -/
structure StatusUpdate where
  status : OrderStatus
  txHash : Option String := none
  executedPrice : Option ℚ := none
  executedAt : Option Nat := none
  errorMessage : Option String := none
  dex : Option String := none
  routeResult : Option RouteResult := none
  deriving DecidableEq, Repr

/-- OrderExecutionEngine.routeOrder: wraps the dexRouter.selectBestDex
round in retryWithBackoff with the default budget (maxRetries 3, base
delay 1000, cap 30000, multiplier 2) and converts an exhausted retry into
a DEX routing failed error naming the order. -/
def routeOrder (o : Order) (env : EngineEnv) : Except String RouteResult :=
  match (retryWithBackoff (selectBestDexRound env.quotes) 3 1000 30000 2).result with
  | .ok r => .ok r
  | .error agg => .error ("DEX routing failed for order " ++ o.id ++ ": " ++ agg.message)

/-- OrderExecutionEngine.executeOrder: calls the venue adapter executeSwap
and converts any thrown exception into an ExecutionResult with success
false and the exception message as the error field; it never raises. -/
def executeOrder (env : EngineEnv) : ExecutionResult :=
  match env.execOutcome with
  | .ok r => r
  | .error e => { success := false, error := some e }

/-- The try block of OrderExecutionEngine.processOrder.  Returns the list
of status updates successfully persisted and broadcast, the number of
updateOrderStatus calls made, and the message of the exception thrown
inside the block if any (none on normal fall through).  An
updateOrderStatus call whose database write fails broadcasts nothing and
rethrows the database error. -/
def processOrderBody (o : Order) (env : EngineEnv) :
    List StatusUpdate × Nat × Option String :=
  match env.persistOutcome 0 with
  | some e => ([], 1, some e)
  | none =>
    let tr0 : List StatusUpdate := [{ status := .routing }]
    match routeOrder o env with
    | .error e => (tr0, 1, some e)
    | .ok route =>
      match env.persistOutcome 1 with
      | some e => (tr0, 2, some e)
      | none =>
        let tr1 := tr0 ++ [{ status := .building, dex := some route.dex, routeResult := some route }]
        match env.persistOutcome 2 with
        | some e => (tr1, 3, some e)
        | none =>
          let tr2 := tr1 ++ [{ status := .submitted }]
          let res := executeOrder env
          if res.success then
            match env.persistOutcome 3 with
            | some e => (tr2, 4, some e)
            | none =>
              (tr2 ++ [{ status := .confirmed, txHash := res.txHash,
                         executedPrice := res.executedPrice,
                         executedAt := some env.now }], 4, none)
          else
            match env.persistOutcome 3 with
            | some e => (tr2, 4, some e)
            | none =>
              (tr2 ++ [{ status := .failed, errorMessage := res.error }], 4, none)

/-- OrderExecutionEngine.processOrder: runs the try block; on a thrown
exception the catch block persists and broadcasts FAILED with the
exception message and rethrows the same exception (if that terminal
persist itself fails, the database error propagates instead and nothing
further is recorded). -/
def processOrder (o : Order) (env : EngineEnv) :
    List StatusUpdate × Except String Unit :=
  let body := processOrderBody o env
  match body.2.2 with
  | none => (body.1, .ok ())
  | some e =>
    match env.persistOutcome body.2.1 with
    | some e2 => (body.1, .error e2)
    | none => (body.1 ++ [{ status := .failed, errorMessage := some e }], .error e)

/-- OrderExecutionEngine.validateMarketOrder result shape. -/
structure ValidationResult where
  isValid : Bool
  error : Option String := none
  deriving DecidableEq, Repr

/-- The JS BigInt conversion applied to a number: defined exactly when the
number is an integer, a RangeError otherwise. -/
def jsBigIntOfNumber (q : ℚ) : Option ℤ :=
  if q.den = 1 then some q.num else none

/-- OrderExecutionEngine.validateMarketOrder: the pre enqueue validation
gate.  A RangeError raised by the BigInt conversion of a non integral
amountIn surfaces as an error value. -/
def validateMarketOrder (o : Order) : Except String ValidationResult :=
  if o.tokenIn = "" || o.tokenOut = "" then
    .ok { isValid := false, error := some "Token addresses are required" }
  else if o.tokenIn = o.tokenOut then
    .ok { isValid := false, error := some "Input and output tokens must be different" }
  else
    match jsBigIntOfNumber o.amountIn with
    | none => .error "RangeError: Cannot convert amountIn to a BigInt"
    | some n =>
      if n ≤ 0 then
        .ok { isValid := false, error := some "Amount must be greater than zero" }
      else if o.type ≠ .market then
        .ok { isValid := false, error := some "This engine only processes market orders" }
      else
        .ok { isValid := true }

/-! ## Persistence (Database.updateOrderStatus, src/src/database/connection.ts) -/

/-- The stored orders row as selected by getOrder (columns of the orders
table). -/
structure OrderRow where
  id : String
  type : String
  tokenIn : String
  tokenOut : String
  tokenInMint : String
  tokenOutMint : String
  amountIn : ℤ
  status : String
  dex : Option String
  txHash : Option String
  errorMessage : Option String
  retryCount : ℤ
  createdAt : Nat
  updatedAt : Nat
  executedAt : Option Nat
  deriving DecidableEq, Repr

/-- The optional data argument of Database.updateOrderStatus; a none field
is an undefined argument, which reaches SQL as NULL. -/
structure OrderUpdateData where
  txHash : Option String := none
  executedAt : Option Nat := none
  errorMessage : Option String := none
  dex : Option String := none
  deriving DecidableEq, Repr

/-- SQL COALESCE of the bound parameter and the previous column value. -/
def coalesce {α : Type} : Option α → Option α → Option α
  | some v, _ => some v
  | none, old => old

/-- The string stored for each status enum value. -/
def statusString : OrderStatus → String
  | .pending => "pending"
  | .routing => "routing"
  | .building => "building"
  | .submitted => "submitted"
  | .confirmed => "confirmed"
  | .failed => "failed"

/-- Database.updateOrderStatus applied to the stored row of the targeted
order id: status and updated_at are overwritten, the four optional columns
are COALESCEd with their previous values, and retry_count increments
exactly when the new status string is failed. -/
def updateOrderStatus (row : OrderRow) (status : OrderStatus)
    (data : OrderUpdateData) (now : Nat) : OrderRow :=
  { row with
    status := statusString status
    updatedAt := now
    txHash := coalesce data.txHash row.txHash
    executedAt := coalesce data.executedAt row.executedAt
    errorMessage := coalesce data.errorMessage row.errorMessage
    dex := coalesce data.dex row.dex
    retryCount :=
      if statusString status = "failed" then row.retryCount + 1 else row.retryCount }

/-! ## Status fan-out (WebSocketManager, src/src/services/solanaConnection.ts) -/

/-- A WebSocket channel as seen by the manager: an identity, the
readyState field (1 is OPEN) and whether a send call on it throws. -/
structure WSChannel where
  cid : Nat
  readyState : Nat
  sendFails : Bool := false
  deriving DecidableEq, Repr

/-- The notification payload for broadcastOrderUpdate. -/
structure WebSocketMessage where
  orderId : String
  status : OrderStatus
  deriving DecidableEq, Repr

/-- The connections map of WebSocketManager, orderId to channel. -/
def ConnectionMap : Type := String → Option WSChannel

/-- Map.set on the connections map. -/
def mapSet (m : ConnectionMap) (k : String) (c : WSChannel) : ConnectionMap :=
  fun k2 => if k2 = k then some c else m k2

/-- Map.delete on the connections map. -/
def mapDelete (m : ConnectionMap) (k : String) : ConnectionMap :=
  fun k2 => if k2 = k then none else m k2

/-- The registration step of setupWebSocketHandlers for an incoming
connection on the order channel: the socket is stored under the order id,
replacing any previously stored one. -/
def subscribeConnection (m : ConnectionMap) (orderId : String) (socket : WSChannel) :
    ConnectionMap :=
  mapSet m orderId socket

/-- WebSocketManager.broadcastOrderUpdate: looks up the channel of the
message order id; with no channel the update is dropped; a channel that is
not open, or whose send throws, is evicted and receives nothing; otherwise
the message is sent once to that channel.  Returns the updated map and the
list of (channel id, message) deliveries. -/
def broadcastOrderUpdate (m : ConnectionMap) (msg : WebSocketMessage) :
    ConnectionMap × List (Nat × WebSocketMessage) :=
  match m msg.orderId with
  | none => (m, [])
  | some c =>
    if c.readyState = 1 then
      if c.sendFails then (mapDelete m msg.orderId, [])
      else (m, [(c.cid, msg)])
    else (mapDelete m msg.orderId, [])

/-! ## Queue intake (OrderQueue.addOrder, src/src/services/queue.ts) -/

/-- The job payload placed on the queue. -/
structure QueueJobData where
  orderId : String
  order : Order
  deriving DecidableEq, Repr

/-- A job as stored by the queue backend. -/
structure BullJob where
  jobId : Nat
  name : String
  data : QueueJobData
  priority : Nat
  deriving DecidableEq, Repr

/-- The queue backend state: the next auto assigned job id and the stored
jobs. -/
structure BullQueueState where
  nextId : Nat
  jobs : List BullJob
  deriving DecidableEq, Repr

/-- Queue.add of the bullmq backend as invoked by addOrder: no jobId
option is supplied, so the backend assigns a fresh incremental id and
appends a new job unconditionally (deduplication happens only when an
explicit jobId option is given, which addOrder does not pass). -/
def bullAdd (st : BullQueueState) (name : String) (data : QueueJobData)
    (priority : Nat) : BullQueueState :=
  { nextId := st.nextId + 1
    jobs := st.jobs ++ [{ jobId := st.nextId, name := name, data := data, priority := priority }] }

/-- OrderQueue.getOrderPriority: sniper 0, market 1, limit 2 (the default
branch 3 is unreachable for the three typed order kinds). -/
def getOrderPriority (o : Order) : Nat :=
  match o.type with
  | .market => 1
  | .limit => 2
  | .sniper => 0

/-- OrderQueue.addOrder: wraps the order in its job payload and adds it to
the queue under the name order dash id with its type priority. -/
def addOrder (st : BullQueueState) (o : Order) : BullQueueState :=
  bullAdd st ("order-" ++ o.id) { orderId := o.id, order := o } (getOrderPriority o)

/-! ## Concrete sample inputs used by counterexamples and witnesses -/

/-- The rational 1.05, in reduced form so that the kernel can evaluate
with it. -/
def p105 : ℚ := ⟨21, 20, by norm_num, by norm_num⟩

/-- The rational 1.02, in reduced form so that the kernel can evaluate
with it. -/
def p102 : ℚ := ⟨51, 50, by norm_num, by norm_num⟩

/-- The rational 0.001, in reduced form so that the kernel can evaluate
with it. -/
def q001 : ℚ := ⟨1, 1000, by norm_num, by norm_num⟩

/-- A well formed market order. -/
def sampleOrder : Order :=
  { id := "ord-1", type := .market, tokenIn := "SOL", tokenOut := "USDC",
    amountIn := 10, status := .pending }

/-- A market order whose amountIn is the fractional number 0.001, as
submitted by the bundled order placement script. -/
def fracOrder : Order :=
  { id := "ord-2", type := .market, tokenIn := "SOL", tokenOut := "USDC",
    amountIn := q001, status := .pending }

/-- An environment in which every raydium quote request fails and every
database write succeeds. -/
def failRoutingEnv : EngineEnv :=
  { quotes :=
      { raydium := fun _ => .error "Raydium quote failed: network down"
        meteora := fun _ => .ok { dex := "meteora", price := p102 } }
    execOutcome := .ok { success := true, txHash := some "tx1", executedPrice := some 1 }
    persistOutcome := fun _ => none }

/-- An environment in which routing and execution succeed and every
database write succeeds. -/
def happyEnv : EngineEnv :=
  { quotes :=
      { raydium := fun _ => .ok { dex := "raydium", price := p105 }
        meteora := fun _ => .ok { dex := "meteora", price := p102 } }
    execOutcome := .ok { success := true, txHash := some "tx1", executedPrice := some 1 }
    persistOutcome := fun _ => none }

/-- An environment in which routing succeeds and the adapter executeSwap
call throws. -/
def execThrowEnv : EngineEnv :=
  { quotes :=
      { raydium := fun _ => .ok { dex := "raydium", price := p105 }
        meteora := fun _ => .ok { dex := "meteora", price := p102 } }
    execOutcome := .error "Unsupported DEX: orca"
    persistOutcome := fun _ => none }

/-- The empty queue backend state. -/
def emptyQueue : BullQueueState := { nextId := 1, jobs := [] }

/-- The routing error message produced for sampleOrder when every raydium
quote attempt of failRoutingEnv fails. -/
def routingFailMsg : String :=
  "DEX routing failed for order ord-1: Operation failed after 4 attempts: DEX routing failed: Raydium quote failed: network down"

/-- A stored orders row used by the merge update witness. -/
def row0 : OrderRow :=
  { id := "ord-1", type := "market", tokenIn := "SOL", tokenOut := "USDC",
    tokenInMint := "mintSOL", tokenOutMint := "mintUSDC", amountIn := 10,
    status := "submitted", dex := some "raydium", txHash := none,
    errorMessage := some "old", retryCount := 0, createdAt := 1, updatedAt := 2,
    executedAt := none }

/-- An update payload setting only the transaction hash. -/
def data0 : OrderUpdateData := { txHash := some "tx" }

/-- A market order with identical input and output tokens. -/
def usdcOrder : Order :=
  { id := "ord-3", type := .market, tokenIn := "USDC", tokenOut := "USDC",
    amountIn := 5, status := .pending }

/-- The empty connections map. -/
def emptyConnections : ConnectionMap := fun _ => none

end OrderExec

namespace OrderExec

/-! ## Theorems -/

/-- Evaluation of the constant p105. -/
theorem p105_eq : p105 = 21 / 20 := by
  rw [p105, Rat.mk'_eq_divInt, Rat.divInt_eq_div]
  norm_num

/-- Evaluation of the constant p102. -/
theorem p102_eq : p102 = 51 / 50 := by
  rw [p102, Rat.mk'_eq_divInt, Rat.divInt_eq_div]
  norm_num

/-- Evaluation of the constant q001. -/
theorem q001_eq : q001 = 1 / 1000 := by
  rw [q001, Rat.mk'_eq_divInt, Rat.divInt_eq_div]
  norm_num

/-- Claim C5: with the configuration whose total attempt budget is 4 (the
default, maxRetries 3, hence maxAttempts 4 in the terms of the spec), an
operation that throws on every call is invoked exactly 4 times, the sleeps
between consecutive invocations are min (baseDelay * multiplier ^ attempt)
cap, and an aggregate error is raised carrying attempts 4 and the last
underlying error message. -/
theorem retryWithBackoff_exhausts_attempts {α : Type} (op : Nat → Except String α)
    (errs : Nat → String) (baseDelay maxDelay backoffMultiplier : Nat)
    (h : ∀ k, op k = .error (errs k)) :
    retryWithBackoff op 3 baseDelay maxDelay backoffMultiplier =
      { result := .error
          { message := "Operation failed after 4 attempts: " ++ errs 3,
            attempts := 4, lastError := errs 3 },
        calls := 4,
        delays := [min (baseDelay * backoffMultiplier ^ 0) maxDelay,
                   min (baseDelay * backoffMultiplier ^ 1) maxDelay,
                   min (baseDelay * backoffMultiplier ^ 2) maxDelay] } := by
  have hop : op = fun k => Except.error (errs k) := funext h
  subst hop
  rfl

/-- Witness for C5: a concrete always failing operation under the default
configuration. -/
theorem retryWithBackoff_exhausts_attempts_witness :
    retryWithBackoff (α := Unit) (fun _ => Except.error "ECONNREFUSED") 3 1000 30000 2 =
      { result := .error
          { message := "Operation failed after 4 attempts: ECONNREFUSED",
            attempts := 4, lastError := "ECONNREFUSED" },
        calls := 4,
        delays := [1000, 2000, 4000] } := by
  have h := retryWithBackoff_exhausts_attempts (α := Unit)
      (fun _ => Except.error "ECONNREFUSED") (fun _ => "ECONNREFUSED")
      1000 30000 2 (fun _ => rfl)
  rw [h]
  rfl

/-- Claim C3: among two venue quotes, selectBestDex picks the one with the
strictly higher normalized price, a tie falls to the fixed default venue
(the meteora branch), and the routingReason string names the selected
venue and both formatted prices. -/
theorem selectBestDex_selection (raydiumQuote meteoraQuote : DexQuote) :
    (raydiumQuote.price > meteoraQuote.price →
      selectBestDexWith raydiumQuote meteoraQuote =
        { dex := raydiumQuote.dex
          bestQuote := raydiumQuote
          allQuotes := [raydiumQuote, meteoraQuote]
          routingReason := "raydium selected: better effective price ("
            ++ toFixed6 raydiumQuote.price ++ " vs " ++ toFixed6 meteoraQuote.price ++ ")" }) ∧
    (¬ raydiumQuote.price > meteoraQuote.price →
      selectBestDexWith raydiumQuote meteoraQuote =
        { dex := meteoraQuote.dex
          bestQuote := meteoraQuote
          allQuotes := [raydiumQuote, meteoraQuote]
          routingReason := "meteora selected: better effective price ("
            ++ toFixed6 meteoraQuote.price ++ " vs " ++ toFixed6 raydiumQuote.price ++ ")" }) := by
  constructor
  · intro hgt
    simp [selectBestDexWith, hgt]
  · intro hle
    simp [selectBestDexWith, hle]

/-- Witness for C3: quotes 1.05 and 1.02 select the 1.05 venue and the
justification names that venue and both prices. -/
theorem selectBestDex_selection_witness :
    selectBestDexWith { dex := "raydium", price := p105 }
        { dex := "meteora", price := p102 } =
      { dex := "raydium"
        bestQuote := { dex := "raydium", price := p105 }
        allQuotes := [{ dex := "raydium", price := p105 },
                      { dex := "meteora", price := p102 }]
        routingReason := "raydium selected: better effective price (1.050000 vs 1.020000)" } := by
  have h := (selectBestDex_selection { dex := "raydium", price := p105 }
      { dex := "meteora", price := p102 }).1
      (by show p105 > p102; rw [p105_eq, p102_eq]; norm_num)
  rw [h]
  decide

/-- Claim C9, counterexample: enqueueing the same order twice changes the
queue again and leaves two jobs carrying the same order id, so enqueue is
not idempotent per order id. -/
theorem addOrder_claim9_counterexample :
    addOrder (addOrder emptyQueue sampleOrder) sampleOrder ≠ addOrder emptyQueue sampleOrder ∧
    ((addOrder (addOrder emptyQueue sampleOrder) sampleOrder).jobs.filter
        (fun j => j.data.orderId == sampleOrder.id)).length = 2 := by
  constructor
  · decide
  · decide

/-- Claim C9, amended: addOrder always appends a fresh job (priority by
type: sniper 0, market 1, limit 2) and never deduplicates, so a second
enqueue of the same order id yields a second job. -/
theorem addOrder_appends (st : BullQueueState) (o : Order) :
    (addOrder st o).jobs = st.jobs ++
      [{ jobId := st.nextId, name := "order-" ++ o.id,
         data := { orderId := o.id, order := o },
         priority := getOrderPriority o }] ∧
    (addOrder st o).nextId = st.nextId + 1 ∧
    getOrderPriority { o with type := .sniper } = 0 ∧
    getOrderPriority { o with type := .market } = 1 ∧
    getOrderPriority { o with type := .limit } = 2 :=
  ⟨rfl, rfl, rfl, rfl, rfl⟩

/-- Claim C7: updateOrderStatus overwrites status and updatedAt, merges
the four optional fields (an omitted field keeps its previous stored
value, a provided one overwrites), increments retryCount exactly when the
new status is FAILED, and leaves every other column of the record
unchanged. -/
theorem updateOrderStatus_merge (row : OrderRow) (st : OrderStatus)
    (data : OrderUpdateData) (now : Nat) :
    (updateOrderStatus row st data now).status = statusString st ∧
    (updateOrderStatus row st data now).updatedAt = now ∧
    (data.txHash = none → (updateOrderStatus row st data now).txHash = row.txHash) ∧
    (∀ v, data.txHash = some v → (updateOrderStatus row st data now).txHash = some v) ∧
    (data.executedAt = none → (updateOrderStatus row st data now).executedAt = row.executedAt) ∧
    (∀ v, data.executedAt = some v → (updateOrderStatus row st data now).executedAt = some v) ∧
    (data.errorMessage = none → (updateOrderStatus row st data now).errorMessage = row.errorMessage) ∧
    (∀ v, data.errorMessage = some v → (updateOrderStatus row st data now).errorMessage = some v) ∧
    (data.dex = none → (updateOrderStatus row st data now).dex = row.dex) ∧
    (∀ v, data.dex = some v → (updateOrderStatus row st data now).dex = some v) ∧
    (updateOrderStatus row st data now).retryCount =
      (if st = .failed then row.retryCount + 1 else row.retryCount) ∧
    (updateOrderStatus row st data now).id = row.id ∧
    (updateOrderStatus row st data now).type = row.type ∧
    (updateOrderStatus row st data now).tokenIn = row.tokenIn ∧
    (updateOrderStatus row st data now).tokenOut = row.tokenOut ∧
    (updateOrderStatus row st data now).tokenInMint = row.tokenInMint ∧
    (updateOrderStatus row st data now).tokenOutMint = row.tokenOutMint ∧
    (updateOrderStatus row st data now).amountIn = row.amountIn ∧
    (updateOrderStatus row st data now).createdAt = row.createdAt := by
  refine ⟨rfl, rfl, ?_, ?_, ?_, ?_, ?_, ?_, ?_, ?_, ?_, rfl, rfl, rfl, rfl, rfl, rfl, rfl, rfl⟩
  · intro h; simp [updateOrderStatus, h, coalesce]
  · intro v h; simp [updateOrderStatus, h, coalesce]
  · intro h; simp [updateOrderStatus, h, coalesce]
  · intro v h; simp [updateOrderStatus, h, coalesce]
  · intro h; simp [updateOrderStatus, h, coalesce]
  · intro v h; simp [updateOrderStatus, h, coalesce]
  · intro h; simp [updateOrderStatus, h, coalesce]
  · intro v h; simp [updateOrderStatus, h, coalesce]
  · cases st <;> rfl

/-- Witness for C7: a concrete merge update into FAILED with only txHash
provided keeps the stored error message, overwrites the hash, increments
the retry count and stamps the new status. -/
theorem updateOrderStatus_merge_witness :
    (updateOrderStatus row0 .failed data0 5).status = "failed" ∧
    (updateOrderStatus row0 .failed data0 5).updatedAt = 5 ∧
    (updateOrderStatus row0 .failed data0 5).txHash = some "tx" ∧
    (updateOrderStatus row0 .failed data0 5).errorMessage = row0.errorMessage ∧
    (updateOrderStatus row0 .failed data0 5).retryCount = row0.retryCount + 1 ∧
    (updateOrderStatus row0 .failed data0 5).amountIn = row0.amountIn := by
  obtain ⟨hs, hu, _, htx, _, _, herr, _, _, _, hrc, _, _, _, _, _, _, hamt, _⟩ :=
    updateOrderStatus_merge row0 .failed data0 5
  exact ⟨hs, hu, htx "tx" rfl, herr rfl, by simpa using hrc, hamt⟩

/-- Claim C8: re-subscribing a channel for an order id replaces the
previously registered channel, and a subsequent broadcast for that id is
delivered exactly once, to the latest channel only; the earlier channel
receives nothing. -/
theorem subscribe_last_writer_wins (m : ConnectionMap) (oid : String)
    (a b : WSChannel) (msg : WebSocketMessage)
    (hmsg : msg.orderId = oid) (hopen : b.readyState = 1)
    (hsend : b.sendFails = false) :
    (subscribeConnection (subscribeConnection m oid a) oid b) oid = some b ∧
    (broadcastOrderUpdate (subscribeConnection (subscribeConnection m oid a) oid b) msg).2
      = [(b.cid, msg)] ∧
    (a.cid ≠ b.cid →
      (a.cid, msg) ∉
        (broadcastOrderUpdate (subscribeConnection (subscribeConnection m oid a) oid b) msg).2) := by
  refine ⟨?_, ?_, ?_⟩
  · simp [subscribeConnection, mapSet]
  · simp [subscribeConnection, mapSet, broadcastOrderUpdate, hmsg, hopen, hsend]
  · intro hne
    simp [subscribeConnection, mapSet, broadcastOrderUpdate, hmsg, hopen, hsend]
    intro hcontra
    exact absurd hcontra hne

/-- Witness for C8: two concrete channels subscribed in turn on the same
order id, then one broadcast. -/
theorem subscribe_last_writer_wins_witness :
    (subscribeConnection (subscribeConnection emptyConnections "ord-1"
        { cid := 1, readyState := 1 }) "ord-1" { cid := 2, readyState := 1 }) "ord-1"
      = some { cid := 2, readyState := 1 } ∧
    (broadcastOrderUpdate (subscribeConnection (subscribeConnection emptyConnections "ord-1"
        { cid := 1, readyState := 1 }) "ord-1" { cid := 2, readyState := 1 })
        { orderId := "ord-1", status := .confirmed }).2
      = [(2, { orderId := "ord-1", status := .confirmed })] ∧
    ((1 : Nat), ({ orderId := "ord-1", status := .confirmed } : WebSocketMessage)) ∉
      (broadcastOrderUpdate (subscribeConnection (subscribeConnection emptyConnections "ord-1"
        { cid := 1, readyState := 1 }) "ord-1" { cid := 2, readyState := 1 })
        { orderId := "ord-1", status := .confirmed }).2 := by
  have h := subscribe_last_writer_wins emptyConnections "ord-1"
      { cid := 1, readyState := 1 } { cid := 2, readyState := 1 }
      { orderId := "ord-1", status := .confirmed } rfl rfl rfl
  exact ⟨h.1, h.2.1, h.2.2 (by decide)⟩

/-- Claim C6, counterexample: a market order with distinct nonempty
tokens, positive amount and market type, whose amountIn is the fractional
number 0.001, makes validateMarketOrder raise a RangeError from the BigInt
conversion instead of returning a validity flag. -/
theorem validateMarketOrder_claim6_counterexample :
    validateMarketOrder fracOrder = .error "RangeError: Cannot convert amountIn to a BigInt" ∧
    fracOrder.tokenIn ≠ "" ∧ fracOrder.tokenOut ≠ "" ∧
    fracOrder.tokenIn ≠ fracOrder.tokenOut ∧ 0 < fracOrder.amountIn ∧
    fracOrder.type = .market := by
  refine ⟨rfl, by decide, by decide, by decide, ?_, rfl⟩
  show (0 : ℚ) < q001
  rw [q001_eq]
  norm_num

/-- Claim C6, amended: for every order whose amountIn is an integer,
validateMarketOrder is total and never raises, it reports invalid exactly
when a token is empty, the tokens are equal, the amount is not positive,
or the type is not market (in particular equal nonempty tokens yield the
reason Input and output tokens must be different), and every invalid
verdict carries a reason string. -/
theorem validateMarketOrder_spec (o : Order) (h : o.amountIn.den = 1) :
    (∃ r, validateMarketOrder o = .ok r) ∧
    (validateMarketOrder o = .ok { isValid := true } ↔
      (o.tokenIn ≠ "" ∧ o.tokenOut ≠ "" ∧ o.tokenIn ≠ o.tokenOut ∧
       0 < o.amountIn ∧ o.type = .market)) ∧
    (o.tokenIn ≠ "" → o.tokenIn = o.tokenOut →
      validateMarketOrder o =
        .ok { isValid := false, error := some "Input and output tokens must be different" }) ∧
    (∀ r, validateMarketOrder o = .ok r → r.isValid = false → r.error.isSome = true) := by
  have hbig : jsBigIntOfNumber o.amountIn = some o.amountIn.num := by
    simp [jsBigIntOfNumber, h]
  have hnum : (o.amountIn.num ≤ 0) ↔ ¬ 0 < o.amountIn := by
    rw [not_lt, ← Rat.num_nonpos]
  by_cases h1 : o.tokenIn = ""
  · have he : validateMarketOrder o =
        .ok { isValid := false, error := some "Token addresses are required" } := by
      simp [validateMarketOrder, h1]
    refine ⟨⟨_, he⟩, by rw [he]; simp [h1], ?_, ?_⟩
    · intro hc _; exact absurd h1 hc
    · intro r hr; rw [he] at hr; simp at hr; simp [← hr]
  · by_cases h2 : o.tokenOut = ""
    · have he : validateMarketOrder o =
          .ok { isValid := false, error := some "Token addresses are required" } := by
        simp [validateMarketOrder, h1, h2]
      refine ⟨⟨_, he⟩, by rw [he]; simp [h2], ?_, ?_⟩
      · intro _ heq; rw [heq] at h1; exact absurd h2 h1
      · intro r hr; rw [he] at hr; simp at hr; simp [← hr]
    · by_cases h3 : o.tokenIn = o.tokenOut
      · have he : validateMarketOrder o =
            .ok { isValid := false, error := some "Input and output tokens must be different" } := by
          simp [validateMarketOrder, h1, h2, h3]
        refine ⟨⟨_, he⟩, by rw [he]; simp [h3], ?_, ?_⟩
        · intro _ _; exact he
        · intro r hr; rw [he] at hr; simp at hr; simp [← hr]
      · by_cases h4 : o.amountIn.num ≤ 0
        · have he : validateMarketOrder o =
              .ok { isValid := false, error := some "Amount must be greater than zero" } := by
            simp [validateMarketOrder, h1, h2, h3, hbig, h4]
          refine ⟨⟨_, he⟩, by rw [he]; simp [h1, h2, h3, hnum.mp h4], ?_, ?_⟩
          · intro _ hc; exact absurd hc h3
          · intro r hr; rw [he] at hr; simp at hr; simp [← hr]
        · have hpos : 0 < o.amountIn := by
            by_contra hc; exact h4 (hnum.mpr hc)
          by_cases h5 : o.type = OrderType.market
          · have he : validateMarketOrder o = .ok { isValid := true } := by
              simp [validateMarketOrder, h1, h2, h3, hbig, h4, h5]
            refine ⟨⟨_, he⟩, by rw [he]; simp [h1, h2, h3, hpos, h5], ?_, ?_⟩
            · intro _ hc; exact absurd hc h3
            · intro r hr; rw [he] at hr; simp at hr; simp [← hr]
          · have he : validateMarketOrder o =
                .ok { isValid := false, error := some "This engine only processes market orders" } := by
              simp [validateMarketOrder, h1, h2, h3, hbig, h4, h5]
            refine ⟨⟨_, he⟩, by rw [he]; simp [h5], ?_, ?_⟩
            · intro _ hc; exact absurd hc h3
            · intro r hr; rw [he] at hr; simp at hr; simp [← hr]

/-- Witness for C6 at the USDC to USDC order of the spec scenario. -/
theorem validateMarketOrder_spec_witness :
    validateMarketOrder usdcOrder =
      .ok { isValid := false, error := some "Input and output tokens must be different" } ∧
    (∃ r, validateMarketOrder usdcOrder = .ok r) := by
  have h := validateMarketOrder_spec usdcOrder (by decide)
  exact ⟨h.2.2.1 (by decide) rfl, h.1⟩

/-- If every attempt fails, the retry loop ends in an aggregate error. -/
theorem retryLoop_error_of_allFail {α : Type} (op : Nat → Except String α)
    (b m mu : Nat) (h : ∀ k, ∃ e, op k = .error e) :
    ∀ (r a : Nat), ∃ agg, (retryLoop op b m mu a r).result = .error agg := by
  intro r
  induction r with
  | zero =>
    intro a
    obtain ⟨e, he⟩ := h a
    exact ⟨⟨"Operation failed after " ++ toString (a + 1) ++ " attempts: " ++ e, a + 1, e⟩,
      by simp [retryLoop, he]⟩
  | succ n ih =>
    intro a
    obtain ⟨e, he⟩ := h a
    obtain ⟨agg, hagg⟩ := ih (a + 1)
    exact ⟨agg, by simp [retryLoop, he, hagg]⟩

/-- If the retry loop returns a value, some attempt in the budget returned
that value. -/
theorem retryLoop_ok_exists {α : Type} (op : Nat → Except String α)
    (b m mu : Nat) :
    ∀ (r a : Nat) (v : α), (retryLoop op b m mu a r).result = .ok v →
      ∃ k, a ≤ k ∧ k ≤ a + r ∧ op k = .ok v := by
  intro r
  induction r with
  | zero =>
    intro a v hv
    cases hop : op a with
    | ok w =>
      have hw : w = v := by simp [retryLoop, hop] at hv; exact hv
      exact ⟨a, le_refl a, by omega, by rw [hop, hw]⟩
    | error e => simp [retryLoop, hop] at hv
  | succ n ih =>
    intro a v hv
    cases hop : op a with
    | ok w =>
      have hw : w = v := by simp [retryLoop, hop] at hv; exact hv
      exact ⟨a, le_refl a, by omega, by rw [hop, hw]⟩
    | error e =>
      have hv2 : (retryLoop op b m mu (a + 1) n).result = .ok v := by
        simp [retryLoop, hop] at hv; exact hv
      obtain ⟨k, hk1, hk2, hk3⟩ := ih (a + 1) v hv2
      exact ⟨k, by omega, by omega, hk3⟩

/-- The allQuotes field of the selection always lists both quotes. -/
theorem selectBestDexWith_allQuotes (rq mq : DexQuote) :
    (selectBestDexWith rq mq).allQuotes = [rq, mq] := by
  unfold selectBestDexWith
  split <;> rfl

/-- Claim C4: if one venue fails on every attempt of the retry budget,
routing raises an error; a RouteResult is produced only when both venue
quotes succeeded in the same round, and then its allQuotes field lists
both quotes. -/
theorem routeOrder_requires_both_quotes (o : Order) (env : EngineEnv) :
    (((∀ k, ∃ e, env.quotes.raydium k = .error e) ∨
      (∀ k, ∃ e, env.quotes.meteora k = .error e)) →
      ∃ e, routeOrder o env = .error e) ∧
    (∀ r, routeOrder o env = .ok r →
      ∃ k rq mq, k ≤ 3 ∧ env.quotes.raydium k = .ok rq ∧
        env.quotes.meteora k = .ok mq ∧ r.allQuotes = [rq, mq]) := by
  constructor
  · intro hfail
    have hall : ∀ k, ∃ e, selectBestDexRound env.quotes k = .error e := by
      intro k
      rcases hfail with hf | hf
      · obtain ⟨e, he⟩ := hf k
        exact ⟨"DEX routing failed: " ++ e, by simp [selectBestDexRound, he]⟩
      · obtain ⟨e, he⟩ := hf k
        cases hr : env.quotes.raydium k with
        | error e2 => exact ⟨"DEX routing failed: " ++ e2, by simp [selectBestDexRound, hr]⟩
        | ok rq => exact ⟨"DEX routing failed: " ++ e, by simp [selectBestDexRound, hr, he]⟩
    obtain ⟨agg, hagg⟩ :=
      retryLoop_error_of_allFail (selectBestDexRound env.quotes) 1000 30000 2 hall 3 0
    refine ⟨"DEX routing failed for order " ++ o.id ++ ": " ++ agg.message, ?_⟩
    unfold routeOrder retryWithBackoff
    rw [hagg]
  · intro r hr
    have hok : (retryLoop (selectBestDexRound env.quotes) 1000 30000 2 0 3).result = .ok r := by
      unfold routeOrder retryWithBackoff at hr
      cases hres : (retryLoop (selectBestDexRound env.quotes) 1000 30000 2 0 3).result with
      | ok v => rw [hres] at hr; simp at hr; rw [← hr]
      | error agg => rw [hres] at hr; simp at hr
    obtain ⟨k, _, hk3, hround⟩ :=
      retryLoop_ok_exists (selectBestDexRound env.quotes) 1000 30000 2 3 0 r hok
    cases hray : env.quotes.raydium k with
    | error e => simp [selectBestDexRound, hray] at hround
    | ok rq =>
      cases hmet : env.quotes.meteora k with
      | error e => simp [selectBestDexRound, hray, hmet] at hround
      | ok mq =>
        have hr2 : r = selectBestDexWith rq mq := by
          simp [selectBestDexRound, hray, hmet] at hround
          exact hround.symm
        exact ⟨k, rq, mq, by omega, hray, hmet,
          by rw [hr2]; exact selectBestDexWith_allQuotes rq mq⟩

/-- Witness for C4: a concrete environment whose raydium adapter always
fails makes routing error, and a concrete all-ok environment yields a
round with both quotes listed. -/
theorem routeOrder_requires_both_quotes_witness :
    (∃ e, routeOrder sampleOrder failRoutingEnv = .error e) ∧
    (∃ k rq mq, k ≤ 3 ∧ happyEnv.quotes.raydium k = .ok rq ∧
      happyEnv.quotes.meteora k = .ok mq ∧
      (selectBestDexWith { dex := "raydium", price := p105 }
        { dex := "meteora", price := p102 }).allQuotes = [rq, mq]) := by
  constructor
  · exact (routeOrder_requires_both_quotes sampleOrder failRoutingEnv).1
      (Or.inl fun k => ⟨"Raydium quote failed: network down", rfl⟩)
  · exact (routeOrder_requires_both_quotes sampleOrder happyEnv).2
      (selectBestDexWith { dex := "raydium", price := p105 }
        { dex := "meteora", price := p102 }) rfl

/-- Claim C1, counterexample: with a routing failure (and persistence
healthy) the persisted and broadcast sequence is PENDING, ROUTING, FAILED;
BUILDING and SUBMITTED are skipped, so the single claimed ladder is not
followed on every path. -/
theorem processOrder_claim1_counterexample :
    (processOrder sampleOrder failRoutingEnv).1.map StatusUpdate.status =
      [OrderStatus.routing, OrderStatus.failed] ∧
    OrderStatus.pending :: (processOrder sampleOrder failRoutingEnv).1.map StatusUpdate.status ≠
      [OrderStatus.pending, .routing, .building, .submitted, .confirmed] ∧
    OrderStatus.pending :: (processOrder sampleOrder failRoutingEnv).1.map StatusUpdate.status ≠
      [OrderStatus.pending, .routing, .building, .submitted, .failed] := by
  have h1 : (processOrder sampleOrder failRoutingEnv).1.map StatusUpdate.status =
      [OrderStatus.routing, OrderStatus.failed] := rfl
  refine ⟨h1, ?_, ?_⟩
  · rw [h1]; decide
  · rw [h1]; decide

/-- Claim C1, amended: with persistence healthy, the sequence persisted
and broadcast for an order is PENDING, ROUTING, BUILDING, SUBMITTED
followed by exactly one of CONFIRMED or FAILED, except that a routing
failure truncates it to PENDING, ROUTING, FAILED; no status is repeated or
reordered. -/
theorem processOrder_status_trace (o : Order) (env : EngineEnv)
    (hp : ∀ k, env.persistOutcome k = none) :
    OrderStatus.pending :: (processOrder o env).1.map StatusUpdate.status =
        [.pending, .routing, .building, .submitted, .confirmed] ∨
    OrderStatus.pending :: (processOrder o env).1.map StatusUpdate.status =
        [.pending, .routing, .building, .submitted, .failed] ∨
    OrderStatus.pending :: (processOrder o env).1.map StatusUpdate.status =
        [.pending, .routing, .failed] := by
  cases hroute : routeOrder o env with
  | error e =>
    right; right
    simp [processOrder, processOrderBody, hroute, hp 0, hp 1]
  | ok route =>
    cases hsucc : (executeOrder env).success with
    | true =>
      left
      simp [processOrder, processOrderBody, hroute, hsucc, hp 0, hp 1, hp 2, hp 3]
    | false =>
      right; left
      simp [processOrder, processOrderBody, hroute, hsucc, hp 0, hp 1, hp 2, hp 3]

/-- Witness for C1 amended, at a concrete healthy environment. -/
theorem processOrder_status_trace_witness :
    OrderStatus.pending :: (processOrder sampleOrder happyEnv).1.map StatusUpdate.status =
        [.pending, .routing, .building, .submitted, .confirmed] ∨
    OrderStatus.pending :: (processOrder sampleOrder happyEnv).1.map StatusUpdate.status =
        [.pending, .routing, .building, .submitted, .failed] ∨
    OrderStatus.pending :: (processOrder sampleOrder happyEnv).1.map StatusUpdate.status =
        [.pending, .routing, .failed] :=
  processOrder_status_trace sampleOrder happyEnv (fun _ => rfl)

/-- Claim C2: an exception thrown at any step inside the try block of
processOrder is persisted and broadcast as FAILED with the exception
message (when that terminal persist succeeds) and the same exception is
re-raised; and processOrder returns normally only when no step threw. -/
theorem processOrder_error_propagation (o : Order) (env : EngineEnv) :
    (∀ tr k e, processOrderBody o env = (tr, k, some e) →
      env.persistOutcome k = none →
      processOrder o env =
        (tr ++ [{ status := .failed, errorMessage := some e }], .error e)) ∧
    (∀ tr, processOrder o env = (tr, .ok ()) →
      (processOrderBody o env).2.2 = none) := by
  constructor
  · intro tr k e hbody hpk
    simp [processOrder, hbody, hpk]
  · intro tr hok
    cases hb : (processOrderBody o env).2.2 with
    | none => rfl
    | some e =>
      exfalso
      cases hpk : env.persistOutcome (processOrderBody o env).2.1 with
      | none => simp [processOrder, hb, hpk] at hok
      | some e2 => simp [processOrder, hb, hpk] at hok

/-- Witness for C2: a concrete routing failure is recorded as FAILED with
the routing error message and the same message is re-raised. -/
theorem processOrder_error_propagation_witness :
    processOrder sampleOrder failRoutingEnv =
      ([{ status := .routing },
        { status := .failed, errorMessage := some routingFailMsg }],
       .error routingFailMsg) := by
  have h := (processOrder_error_propagation sampleOrder failRoutingEnv).1
      [{ status := .routing }] 1 routingFailMsg rfl rfl
  exact h

/-- Claim C10: executeOrder converts a thrown adapter exception into an
ExecutionResult with success false carrying the exception message, and
(with routing and persistence healthy) processOrder then records the
FAILED terminal status and returns normally without re-raising. -/
theorem executeOrder_converts_throw (o : Order) (env : EngineEnv) :
    (∀ e, env.execOutcome = .error e →
      executeOrder env = { success := false, error := some e }) ∧
    (∀ e route, env.execOutcome = .error e → routeOrder o env = .ok route →
      (∀ k, env.persistOutcome k = none) →
      processOrder o env =
        ([{ status := .routing },
          { status := .building, dex := some route.dex, routeResult := some route },
          { status := .submitted },
          { status := .failed, errorMessage := some e }], .ok ())) := by
  constructor
  · intro e he
    simp [executeOrder, he]
  · intro e route he hroute hp
    simp [processOrder, processOrderBody, executeOrder, he, hroute, hp 0, hp 1, hp 2, hp 3]

/-- Witness for C10: a concrete adapter throw during execution yields a
FAILED terminal update and a normal return. -/
theorem executeOrder_converts_throw_witness :
    executeOrder execThrowEnv =
      { success := false, error := some "Unsupported DEX: orca" } ∧
    processOrder sampleOrder execThrowEnv =
      ([{ status := .routing },
        { status := .building,
          dex := some (selectBestDexWith { dex := "raydium", price := p105 }
            { dex := "meteora", price := p102 }).dex,
          routeResult := some (selectBestDexWith { dex := "raydium", price := p105 }
            { dex := "meteora", price := p102 }) },
        { status := .submitted },
        { status := .failed, errorMessage := some "Unsupported DEX: orca" }], .ok ()) := by
  have h := executeOrder_converts_throw sampleOrder execThrowEnv
  exact ⟨h.1 "Unsupported DEX: orca" rfl,
    h.2 "Unsupported DEX: orca"
      (selectBestDexWith { dex := "raydium", price := p105 }
        { dex := "meteora", price := p102 }) rfl rfl (fun _ => rfl)⟩

end OrderExec
